import Mathlib

/-!
Shallow embedding of the OCR bundle pipeline of `src/main.py`
(functions `pdf_to_images`, `ocr_page_with_vision`, `build_bundle`).

Modelling decisions:
* Filesystem paths are lists of components (`List String`); `os.path.join`
  is list append and `os.path.relpath full base` for `full` under `base`
  drops the leading `base` components.
* An image is its PNG byte content, abstracted as a `String`.
* A PDF document is either corrupt (then `fitz.open`/rendering raises)
  or a list of pages, each rendering to image bytes at a given dpi.
* The external recognition call (the OpenAI `chat.completions.create`
  inside `ocr_page_with_vision`) is an oracle
  `rec : String → Except String (Option String)`: given the page image it
  either raises an exception carrying message `e` (`Except.error e`) or
  returns a response whose `message.content` is `none` (Python `None`) or
  `some s`; the function body then evaluates
  `resp.choices[0].message.content or ""`.
* File contents are modelled structurally (`FileData`): raw bytes/text as
  strings, `structure.json` as its list of page entries, the tables
  placeholder as its `tables` list and `note` string.
-/

/-- One rasterizable page of a PDF document: its rendering at a dpi. -/
structure PdfPage where
  render : Nat → String

/-- A PDF file on disk: either unparsable or a list of pages. -/
inductive PdfDoc where
  | corrupt (msg : String)
  | valid (pages : List PdfPage)

/-- Model of `pdf_to_images` (src/main.py lines 40-51): open the document, render each
page at dpi 300 in order; a corrupt document raises. -/
def pdf_to_images (doc : PdfDoc) : Except String (List String) :=
  match doc with
  | PdfDoc.corrupt msg => Except.error msg
  | PdfDoc.valid pages => Except.ok (pages.map (fun p => p.render 300))

/-- The recognition oracle: page image bytes to either an exception message
or the response `message.content` (possibly null). -/
def Recognizer : Type := String → Except String (Option String)

/-- Body of `ocr_page_with_vision` after the remote call returned
(src/main.py line 92): `resp.choices[0].message.content or ""`. -/
def ocr_page_with_vision (content : Option String) : String :=
  match content with
  | none => ""
  | some s => s

/-- One entry of the `results` list built in `build_bundle`
(src/main.py lines 121-128). -/
structure PageResult where
  page_number : Nat
  text : String
  text_length : Nat
  warning : Option String
  deriving Repr, DecidableEq

/-- The dict literal of src/main.py lines 121-128:
`text_length` is `len(text)`. -/
def mkPageResult (idx : Nat) (text : String) (warning : Option String) : PageResult :=
  { page_number := idx, text := text, text_length := text.length, warning := warning }

/-- The body of the per-page loop of `build_bundle` (src/main.py lines
113-128): try recognition; on any exception `e` set `text = ""` and
`warning = f"OCR error: {e}"`. -/
def processPage (idx : Nat) (outcome : Except String (Option String)) : PageResult :=
  match outcome with
  | Except.ok content => mkPageResult idx (ocr_page_with_vision content) none
  | Except.error e => mkPageResult idx "" (some ("OCR error: " ++ e))

/-- The per-page loop `for idx, img in enumerate(pages, start=1)`
(src/main.py lines 111-128), producing the `results` list. -/
def ocrLoop (rec : Recognizer) : Nat → List String → List PageResult
  | _, [] => []
  | idx, img :: rest => processPage idx (rec img) :: ocrLoop rec (idx + 1) rest

/-- Python `f"{idx:03d}"`: decimal digits zero-padded to minimum width 3. -/
def pad3 (n : Nat) : String :=
  let s := toString n
  if s.length ≥ 3 then s else String.mk (List.replicate (3 - s.length) '0' ++ s.data)

/-- One entry of the `pages` array of `structure.json`
(src/main.py lines 149-156). -/
structure StructEntry where
  page_number : Nat
  text_length : Nat
  has_warning : Bool
  deriving Repr, DecidableEq

/-- Content of one file in the working directory, modelled structurally. -/
inductive FileData where
  | png (img : String)
  | textDoc (s : String)
  | structureJson (pages : List StructEntry)
  | tablesJson (tables : List String) (note : String)
  deriving Repr, DecidableEq

/-- The image files saved inside the per-page loop (src/main.py lines
130-131): `media/images/page_{idx:03d}.png` holding the page's PNG bytes,
one per page in loop order. -/
def mediaFiles (media_dir : List String) : Nat → List String →
    List (List String × FileData)
  | _, [] => []
  | idx, img :: rest =>
      (media_dir ++ ["page_" ++ pad3 idx ++ ".png"], FileData.png img)
        :: mediaFiles media_dir (idx + 1) rest

/-- The `raw_text.md` writing loop (src/main.py lines 137-142): for each
result, a page marker line, the text, and a blank separator. -/
def rawTextContent (results : List PageResult) : String :=
  results.foldl
    (fun acc r =>
      acc ++ "<!-- Page " ++ toString r.page_number ++ " -->\n" ++ r.text ++ "\n\n")
    ""

/-- The `total_chars` accumulation interleaved with the raw-text loop
(src/main.py lines 135-142): sum of `text_length` over `results`. -/
def totalChars (results : List PageResult) : Nat :=
  results.foldl (fun acc r => acc + r.text_length) 0

/-- The `pages` array written into `structure.json`
(src/main.py lines 147-161). -/
def structEntries (results : List PageResult) : List StructEntry :=
  results.map (fun r =>
    { page_number := r.page_number, text_length := r.text_length,
      has_warning := r.warning.isSome })

/-- Python truthiness of the `warning` field: `None` and `""` are falsy. -/
def warnTruthy (w : Option String) : Bool :=
  match w with
  | none => false
  | some s => !s.isEmpty

/-- The lines written to `ocr_warnings.txt` (src/main.py lines 165-168):
for each result with a truthy warning, `f"Trang {page_number}: {warning}"`. -/
def ocrWarningLines (results : List PageResult) : List String :=
  results.filterMap (fun r =>
    match r.warning with
    | none => none
    | some w =>
        if w.isEmpty then none
        else some ("Trang " ++ toString r.page_number ++ ": " ++ w))

/-- Each `f.write(line + "\n")` in sequence: the file content is the
concatenation of the lines, each newline-terminated. -/
def joinLines (lines : List String) : String :=
  lines.foldl (fun acc l => acc ++ l ++ "\n") ""

/-- The `warnings` list of the returned dict (src/main.py line 196):
`[r["warning"] for r in results if r["warning"]]`. -/
def descriptorWarnings (results : List PageResult) : List String :=
  results.filterMap (fun r =>
    match r.warning with
    | none => none
    | some w => if w.isEmpty then none else some w)

/-- The dict returned by `build_bundle` (src/main.py lines 191-197). -/
structure BundleDescriptor where
  zip_name : String
  zip_path : List String
  page_count : Nat
  total_chars : Nat
  warnings : List String
  deriving Repr, DecidableEq

/-- Model of `os.path.relpath full base` for a path below `base`: drop the leading
`base` components. -/
def relpath (full base : List String) : List String :=
  full.drop base.length

/-- Observable outcome of one `build_bundle` call: the directories it
created, the `results` list it accumulated, every file written under the
working directory, the archive (zip path and members, each member named by
its path relative to the working directory), and the returned dict — or the
propagated exception message when rasterization raised. -/
structure JobOutcome where
  dirsCreated : List (List String)
  results : List PageResult
  filesWritten : List (List String × FileData)
  archive : Option (List String × List (List String × FileData))
  descriptor : Except String BundleDescriptor
  deriving Repr

/-- Model of `build_bundle` (src/main.py lines 98-197). Directory creation happens
first; then rasterization (whose exception propagates, leaving no file
written and no archive); then the per-page OCR loop with image saving;
then the four document/table files; then the zip archiving every file
under the working directory with its relative path as entry name. -/
def build_bundle (rec : Recognizer) (doc : PdfDoc) (job_id : String) : JobOutcome :=
  let workdir : List String := ["work", job_id]
  let docs_dir := workdir ++ ["docs"]
  let tables_dir := workdir ++ ["tables"]
  let media_dir := workdir ++ ["media", "images"]
  let dirs := [docs_dir, tables_dir, media_dir]
  match pdf_to_images doc with
  | Except.error e =>
      { dirsCreated := dirs, results := [], filesWritten := [],
        archive := none, descriptor := Except.error e }
  | Except.ok imgs =>
      let results := ocrLoop rec 1 imgs
      let files := mediaFiles media_dir 1 imgs ++
        [(docs_dir ++ ["raw_text.md"], FileData.textDoc (rawTextContent results)),
         (docs_dir ++ ["structure.json"], FileData.structureJson (structEntries results)),
         (docs_dir ++ ["ocr_warnings.txt"],
           FileData.textDoc (joinLines (ocrWarningLines results))),
         (tables_dir ++ ["table_001.json"],
           FileData.tablesJson [] "Chưa implement nhận diện bảng.")]
      let zip_name := job_id ++ ".zip"
      let zip_path : List String := ["bundles", zip_name]
      let members := files.map (fun pd => (relpath pd.1 workdir, pd.2))
      { dirsCreated := dirs,
        results := results,
        filesWritten := files,
        archive := some (zip_path, members),
        descriptor := Except.ok
          { zip_name := zip_name, zip_path := zip_path,
            page_count := results.length,
            total_chars := totalChars results,
            warnings := descriptorWarnings results } }

/-- The list of files `build_bundle` writes under the working directory of
job `job` for a parsable document with the given pages: the per-page images
saved inside the loop, then `docs/raw_text.md`, `docs/structure.json`,
`docs/ocr_warnings.txt` and `tables/table_001.json`. -/
def bundleFiles (rec : Recognizer) (pages : List PdfPage) (job : String) :
    List (List String × FileData) :=
  mediaFiles ["work", job, "media", "images"] 1 (pages.map (fun p => p.render 300)) ++
    [(["work", job, "docs", "raw_text.md"],
       FileData.textDoc (rawTextContent (ocrLoop rec 1 (pages.map (fun p => p.render 300))))),
     (["work", job, "docs", "structure.json"],
       FileData.structureJson (structEntries (ocrLoop rec 1 (pages.map (fun p => p.render 300))))),
     (["work", job, "docs", "ocr_warnings.txt"],
       FileData.textDoc (joinLines (ocrWarningLines (ocrLoop rec 1 (pages.map (fun p => p.render 300)))))),
     (["work", job, "tables", "table_001.json"],
       FileData.tablesJson [] "Chưa implement nhận diện bảng.")]

/-- A page rendering to the fixed image bytes `s` at every dpi, used for
concrete runs. -/
def mkPage (s : String) : PdfPage := ⟨fun _ => s⟩

/-- Concrete recognizer for the 3-page scenario: the second page's call
raises a timeout, the others return non-empty text. -/
def timeoutRec : Recognizer := fun img =>
  if img = "img2" then Except.error "timeout"
  else if img = "img1" then Except.ok (some "hello one")
  else Except.ok (some "hello three")

/-- Concrete 3-page document for the timeout scenario. -/
def threePageDoc : PdfDoc := PdfDoc.valid [mkPage "img1", mkPage "img2", mkPage "img3"]

/-- A recognizer whose every call raises. -/
def failRec : Recognizer := fun _ => Except.error "boom"

/-- A recognizer that succeeds with a null `message.content`. -/
def nullRec : Recognizer := fun _ => Except.ok none

/-- Concrete one-page document. -/
def onePageDoc : PdfDoc := PdfDoc.valid [mkPage "imgA"]

/-- The `warnings` list of the dict returned by a run; empty if the run
raised instead of returning. -/
def descWarnings (o : JobOutcome) : List String :=
  match o.descriptor with
  | Except.ok d => d.warnings
  | Except.error _ => []

/-! ### Basic lemmas about the loop and the aggregation functions -/

theorem ocrLoop_length (rec : Recognizer) :
    ∀ (idx : Nat) (imgs : List String), (ocrLoop rec idx imgs).length = imgs.length := by
  intro idx imgs
  induction imgs generalizing idx with
  | nil => rfl
  | cons a rest ih => simp [ocrLoop, ih]

theorem ocrLoop_eq_enumFrom (rec : Recognizer) :
    ∀ (idx : Nat) (imgs : List String),
      ocrLoop rec idx imgs
        = (imgs.enumFrom idx).map (fun q => processPage q.1 (rec q.2)) := by
  intro idx imgs
  induction imgs generalizing idx with
  | nil => rfl
  | cons a rest ih => simp [ocrLoop, List.enumFrom_cons, ih]

theorem ocrLoop_get (rec : Recognizer) :
    ∀ (imgs : List String) (idx i : Nat) (h : i < imgs.length)
      (h2 : i < (ocrLoop rec idx imgs).length),
      (ocrLoop rec idx imgs).get ⟨i, h2⟩
        = processPage (idx + i) (rec (imgs.get ⟨i, h⟩)) := by
  intro imgs
  induction imgs with
  | nil => intro idx i h _; exact absurd h (Nat.not_lt_zero i)
  | cons a rest ih =>
      intro idx i h h2
      cases i with
      | zero =>
          show processPage idx (rec a) = processPage (idx + 0) (rec a)
          rw [Nat.add_zero]
      | succ j =>
          have hj : j < rest.length := Nat.lt_of_succ_lt_succ h
          have hj2 : j < (ocrLoop rec (idx + 1) rest).length := by
            rw [ocrLoop_length]; exact hj
          show (ocrLoop rec (idx + 1) rest).get ⟨j, hj2⟩
            = processPage (idx + (j + 1)) (rec (rest.get ⟨j, hj⟩))
          rw [ih (idx + 1) j hj hj2]
          have harith : idx + 1 + j = idx + (j + 1) := by omega
          rw [harith]

theorem mediaFiles_map_fst (dir : List String) :
    ∀ (idx : Nat) (imgs : List String),
      (mediaFiles dir idx imgs).map Prod.fst
        = (List.range imgs.length).map
            (fun k => dir ++ ["page_" ++ pad3 (idx + k) ++ ".png"]) := by
  intro idx imgs
  induction imgs generalizing idx with
  | nil => rfl
  | cons a rest ih =>
      simp only [mediaFiles, List.map_cons, List.length_cons, List.range_succ_eq_map,
        List.map_map, ih]
      rw [Nat.add_zero]
      congr 1
      apply List.map_congr_left
      intro k _
      have harith : idx + 1 + k = idx + Nat.succ k := by omega
      simp only [Function.comp, harith]

theorem mediaFiles_mem_shape (dir : List String) :
    ∀ (idx : Nat) (imgs : List String) (p : List String) (d : FileData),
      (p, d) ∈ mediaFiles dir idx imgs → ∃ name, p = dir ++ [name] := by
  intro idx imgs
  induction imgs generalizing idx with
  | nil => intro p d h; cases h
  | cons a rest ih =>
      intro p d h
      rcases List.mem_cons.mp h with h1 | h1
      · exact ⟨"page_" ++ pad3 idx ++ ".png", congrArg Prod.fst h1⟩
      · exact ih (idx + 1) p d h1

theorem totalChars_aux (rs : List PageResult) :
    ∀ n : Nat, rs.foldl (fun acc r => acc + r.text_length) n
      = n + (rs.map PageResult.text_length).sum := by
  induction rs with
  | nil => intro n; simp
  | cons r rest ih => intro n; simp [List.foldl_cons, ih, Nat.add_assoc]

theorem totalChars_eq_sum (rs : List PageResult) :
    totalChars rs = (rs.map PageResult.text_length).sum := by
  have := totalChars_aux rs 0
  simpa [totalChars] using this

theorem descriptorWarnings_eq (rs : List PageResult) :
    descriptorWarnings rs
      = (rs.filter (fun r => warnTruthy r.warning)).map
          (fun r => r.warning.getD "") := by
  induction rs with
  | nil => rfl
  | cons r rest ih =>
      cases hw : r.warning with
      | none =>
          have hL : descriptorWarnings (r :: rest) = descriptorWarnings rest := by
            simp [descriptorWarnings, List.filterMap_cons, hw]
          have hR : List.filter (fun x => warnTruthy x.warning) (r :: rest)
              = List.filter (fun x => warnTruthy x.warning) rest := by
            rw [List.filter_cons]
            simp [warnTruthy, hw]
          rw [hL, hR, ih]
      | some w =>
          by_cases he : w.isEmpty
          · have hL : descriptorWarnings (r :: rest) = descriptorWarnings rest := by
              simp [descriptorWarnings, List.filterMap_cons, hw, he]
            have hR : List.filter (fun x => warnTruthy x.warning) (r :: rest)
                = List.filter (fun x => warnTruthy x.warning) rest := by
              rw [List.filter_cons]
              simp [warnTruthy, hw, he]
            rw [hL, hR, ih]
          · have hL : descriptorWarnings (r :: rest) = w :: descriptorWarnings rest := by
              simp [descriptorWarnings, List.filterMap_cons, hw, he]
            have hR : List.filter (fun x => warnTruthy x.warning) (r :: rest)
                = r :: List.filter (fun x => warnTruthy x.warning) rest := by
              rw [List.filter_cons]
              simp [warnTruthy, hw, he]
            rw [hL, hR, List.map_cons, ih]
            simp [hw]

theorem ocrWarningLines_eq (rs : List PageResult) :
    ocrWarningLines rs
      = (rs.filter (fun r => warnTruthy r.warning)).map
          (fun r => "Trang " ++ toString r.page_number ++ ": " ++ r.warning.getD "") := by
  induction rs with
  | nil => rfl
  | cons r rest ih =>
      cases hw : r.warning with
      | none =>
          have hL : ocrWarningLines (r :: rest) = ocrWarningLines rest := by
            simp [ocrWarningLines, List.filterMap_cons, hw]
          have hR : List.filter (fun x => warnTruthy x.warning) (r :: rest)
              = List.filter (fun x => warnTruthy x.warning) rest := by
            rw [List.filter_cons]
            simp [warnTruthy, hw]
          rw [hL, hR, ih]
      | some w =>
          by_cases he : w.isEmpty
          · have hL : ocrWarningLines (r :: rest) = ocrWarningLines rest := by
              simp [ocrWarningLines, List.filterMap_cons, hw, he]
            have hR : List.filter (fun x => warnTruthy x.warning) (r :: rest)
                = List.filter (fun x => warnTruthy x.warning) rest := by
              rw [List.filter_cons]
              simp [warnTruthy, hw, he]
            rw [hL, hR, ih]
          · have hL : ocrWarningLines (r :: rest)
                = ("Trang " ++ toString r.page_number ++ ": " ++ w) :: ocrWarningLines rest := by
              simp [ocrWarningLines, List.filterMap_cons, hw, he]
            have hR : List.filter (fun x => warnTruthy x.warning) (r :: rest)
                = r :: List.filter (fun x => warnTruthy x.warning) rest := by
              rw [List.filter_cons]
              simp [warnTruthy, hw, he]
            rw [hL, hR, List.map_cons, ih]
            simp [hw]

theorem ocr_warning_ne_empty (e : String) : ("OCR error: " ++ e).isEmpty = false := by
  rw [Bool.eq_false_iff]
  intro h
  have h2 := (String.isEmpty_iff _).mp h
  have h3 := congrArg String.length h2
  rw [String.length_append] at h3
  have h4 : ("OCR error: " : String).length = 11 := rfl
  have h5 : ("" : String).length = 0 := rfl
  omega

theorem string_length_ne_zero (s : String) (h : s ≠ "") : s.length ≠ 0 := by
  intro h0
  apply h
  apply String.ext
  have h1 : s.data.length = 0 := h0
  simpa using List.length_eq_zero.mp h1

theorem ocrLoop_all_error (rec : Recognizer) :
    ∀ (imgs : List String) (idx : Nat),
      (∀ img ∈ imgs, ∃ e, rec img = Except.error e) →
      ∀ r ∈ ocrLoop rec idx imgs,
        r.text = "" ∧ r.text_length = 0
          ∧ ∃ e, r.warning = some ("OCR error: " ++ e) := by
  intro imgs
  induction imgs with
  | nil => intro idx _ r hr; cases hr
  | cons a rest ih =>
      intro idx h r hr
      rcases List.mem_cons.mp hr with h1 | h1
      · rcases h a (List.mem_cons_self a rest) with ⟨e, he⟩
        subst h1
        rw [he]
        exact ⟨rfl, rfl, e, rfl⟩
      · exact ih (idx + 1) (fun img hm => h img (List.mem_cons_of_mem a hm)) r h1

/-- Unfolding of `build_bundle` on a parsable document. -/
theorem build_bundle_valid (rec : Recognizer) (pages : List PdfPage) (job : String) :
    build_bundle rec (PdfDoc.valid pages) job =
      { dirsCreated := [["work", job, "docs"], ["work", job, "tables"],
          ["work", job, "media", "images"]],
        results := ocrLoop rec 1 (pages.map (fun p => p.render 300)),
        filesWritten := bundleFiles rec pages job,
        archive := some (["bundles", job ++ ".zip"],
          (bundleFiles rec pages job).map (fun pd => (relpath pd.1 ["work", job], pd.2))),
        descriptor := Except.ok
          { zip_name := job ++ ".zip", zip_path := ["bundles", job ++ ".zip"],
            page_count := (ocrLoop rec 1 (pages.map (fun p => p.render 300))).length,
            total_chars := totalChars (ocrLoop rec 1 (pages.map (fun p => p.render 300))),
            warnings :=
              descriptorWarnings (ocrLoop rec 1 (pages.map (fun p => p.render 300))) } } :=
  rfl

/-! ### Claim theorems -/

/-- C1: every exception raised by the recognition call is caught inside the
per-page loop and becomes a PageResult with empty text and a warning message
embedding the cause; a recognition failure never fails the job: on a
parsable document `build_bundle` always returns a descriptor, and when every
page's recognition raises, the descriptor still comes back with
`total_chars = 0` and one warning per page. -/
theorem C1_recognition_failures_never_fail_job
    (rec : Recognizer) (pages : List PdfPage) (job : String)
    (hfail : ∀ img ∈ pages.map (fun p => p.render 300), ∃ e, rec img = Except.error e) :
    (∀ idx e, processPage idx (Except.error e)
        = { page_number := idx, text := "", text_length := 0,
            warning := some ("OCR error: " ++ e) })
    ∧ (∀ rec2 : Recognizer, ∃ d,
        (build_bundle rec2 (PdfDoc.valid pages) job).descriptor = Except.ok d)
    ∧ ∃ d, (build_bundle rec (PdfDoc.valid pages) job).descriptor = Except.ok d
        ∧ d.total_chars = 0
        ∧ d.warnings.length = pages.length := by
  refine ⟨fun idx e => rfl, fun rec2 => ⟨_, rfl⟩, ?_⟩
  refine ⟨_, rfl, ?_, ?_⟩
  · show totalChars (ocrLoop rec 1 (pages.map (fun p => p.render 300))) = 0
    rw [totalChars_eq_sum]
    apply List.sum_eq_zero
    intro x hx
    rcases List.mem_map.mp hx with ⟨r, hr, hxe⟩
    rcases ocrLoop_all_error rec _ 1 hfail r hr with ⟨_, h0, _⟩
    rw [← hxe]
    exact h0
  · show (descriptorWarnings (ocrLoop rec 1 (pages.map (fun p => p.render 300)))).length
      = pages.length
    have hall : List.filter (fun r => warnTruthy r.warning)
        (ocrLoop rec 1 (pages.map (fun p => p.render 300)))
        = ocrLoop rec 1 (pages.map (fun p => p.render 300)) := by
      rw [List.filter_eq_self]
      intro r hr
      rcases ocrLoop_all_error rec _ 1 hfail r hr with ⟨_, _, e, hw⟩
      simp [warnTruthy, hw, ocr_warning_ne_empty e]
    rw [descriptorWarnings_eq, hall, List.length_map, ocrLoop_length, List.length_map]

/-- Closed witness for C1: a one-page document whose only recognition call
raises; the job still returns a descriptor with zero characters and exactly
one warning. -/
theorem C1_witness :
    (∀ idx e, processPage idx (Except.error e)
        = { page_number := idx, text := "", text_length := 0,
            warning := some ("OCR error: " ++ e) })
    ∧ (∀ rec2 : Recognizer, ∃ d,
        (build_bundle rec2 (PdfDoc.valid [mkPage "imgA"]) "job1").descriptor = Except.ok d)
    ∧ ∃ d, (build_bundle failRec (PdfDoc.valid [mkPage "imgA"]) "job1").descriptor
          = Except.ok d
        ∧ d.total_chars = 0
        ∧ d.warnings.length = [mkPage "imgA"].length :=
  C1_recognition_failures_never_fail_job failRec [mkPage "imgA"] "job1"
    (by intro img hm; exact ⟨"boom", rfl⟩)

/-- C2: for every job on a parsable document, the `results` list, the
`structure.json` entries and the descriptor's `page_count` all equal the
number of rasterized pages, however many pages warned; and the descriptor's
`total_chars` is the sum of `text_length` over the results. -/
theorem C2_page_counts_and_total_chars
    (rec : Recognizer) (pages : List PdfPage) (job : String) :
    ∃ d, (build_bundle rec (PdfDoc.valid pages) job).descriptor = Except.ok d
      ∧ (build_bundle rec (PdfDoc.valid pages) job).results.length = pages.length
      ∧ d.page_count = pages.length
      ∧ (structEntries (build_bundle rec (PdfDoc.valid pages) job).results).length
          = pages.length
      ∧ (["work", job, "docs", "structure.json"],
          FileData.structureJson
            (structEntries (build_bundle rec (PdfDoc.valid pages) job).results))
          ∈ (build_bundle rec (PdfDoc.valid pages) job).filesWritten
      ∧ d.total_chars
          = ((build_bundle rec (PdfDoc.valid pages) job).results.map
              PageResult.text_length).sum := by
  have hlen : (build_bundle rec (PdfDoc.valid pages) job).results.length = pages.length := by
    show (ocrLoop rec 1 (pages.map (fun p => p.render 300))).length = pages.length
    rw [ocrLoop_length, List.length_map]
  refine ⟨_, rfl, hlen, hlen, ?_, ?_, ?_⟩
  · show (structEntries (ocrLoop rec 1 (pages.map (fun p => p.render 300)))).length
      = pages.length
    rw [structEntries, List.length_map]
    exact hlen
  · show (["work", job, "docs", "structure.json"],
        FileData.structureJson
          (structEntries (ocrLoop rec 1 (pages.map (fun p => p.render 300)))))
        ∈ bundleFiles rec pages job
    apply List.mem_append_right
    simp
  · show totalChars (ocrLoop rec 1 (pages.map (fun p => p.render 300)))
      = ((ocrLoop rec 1 (pages.map (fun p => p.render 300))).map
          PageResult.text_length).sum
    exact totalChars_eq_sum _

/-- C6: on a document that cannot be parsed during rasterization the job
raises before any recognition call (the outcome does not depend on the
recognizer at all), no file is written under the working directory, no
archive is produced and no archive path is returned. -/
theorem C6_corrupt_document_fails_before_recognition
    (rec rec2 : Recognizer) (m job : String) :
    (build_bundle rec (PdfDoc.corrupt m) job).descriptor = Except.error m
    ∧ (build_bundle rec (PdfDoc.corrupt m) job).filesWritten = []
    ∧ (build_bundle rec (PdfDoc.corrupt m) job).archive = none
    ∧ (build_bundle rec (PdfDoc.corrupt m) job).results = []
    ∧ build_bundle rec (PdfDoc.corrupt m) job = build_bundle rec2 (PdfDoc.corrupt m) job :=
  ⟨rfl, rfl, rfl, rfl, rfl⟩

/-- C9: a parsable zero-page document is not rejected; `build_bundle`
produces an empty-but-valid bundle — `page_count = 0`, `total_chars = 0`,
empty warnings, the archive still created with empty docs files — for every
recognizer and job, so the program holds this policy consistently. -/
theorem C9_zero_page_document_produces_empty_bundle
    (rec : Recognizer) (job : String) :
    build_bundle rec (PdfDoc.valid []) job =
      { dirsCreated := [["work", job, "docs"], ["work", job, "tables"],
          ["work", job, "media", "images"]],
        results := [],
        filesWritten :=
          [(["work", job, "docs", "raw_text.md"], FileData.textDoc ""),
           (["work", job, "docs", "structure.json"], FileData.structureJson []),
           (["work", job, "docs", "ocr_warnings.txt"], FileData.textDoc ""),
           (["work", job, "tables", "table_001.json"],
             FileData.tablesJson [] "Chưa implement nhận diện bảng.")],
        archive := some (["bundles", job ++ ".zip"],
          [(["docs", "raw_text.md"], FileData.textDoc ""),
           (["docs", "structure.json"], FileData.structureJson []),
           (["docs", "ocr_warnings.txt"], FileData.textDoc ""),
           (["tables", "table_001.json"],
             FileData.tablesJson [] "Chưa implement nhận diện bảng.")]),
        descriptor := Except.ok
          { zip_name := job ++ ".zip", zip_path := ["bundles", job ++ ".zip"],
            page_count := 0, total_chars := 0, warnings := [] } } := rfl

/-- C10: a recognition call that succeeds with null or empty content yields
a PageResult with empty text and no warning, so empty text (or
`has_warning = false` with `text_length = 0`) does not imply the
recognition failed: the converse of the warned-implies-empty invariant
fails. -/
theorem C10_empty_text_does_not_imply_failure (idx : Nat) :
    ocr_page_with_vision none = ""
    ∧ processPage idx (Except.ok none)
        = { page_number := idx, text := "", text_length := 0, warning := none }
    ∧ processPage idx (Except.ok (some ""))
        = { page_number := idx, text := "", text_length := 0, warning := none }
    ∧ (build_bundle nullRec (PdfDoc.valid [mkPage "imgA"]) "job2").results
        = [{ page_number := 1, text := "", text_length := 0, warning := none }]
    ∧ structEntries (build_bundle nullRec (PdfDoc.valid [mkPage "imgA"]) "job2").results
        = [{ page_number := 1, text_length := 0, has_warning := false }]
    ∧ ¬ (∀ (j : Nat) (oc : Except String (Option String)),
          (processPage j oc).text_length = 0 → (processPage j oc).warning ≠ none) := by
  refine ⟨rfl, rfl, rfl, rfl, rfl, ?_⟩
  intro h
  exact h 1 (Except.ok none) rfl rfl

theorem processPage_warning_spec (idx : Nat) (oc : Except String (Option String)) :
    ((processPage idx oc).warning ≠ none ↔ ∃ e, oc = Except.error e)
    ∧ ((processPage idx oc).warning ≠ none →
        (processPage idx oc).text = "" ∧ (processPage idx oc).text_length = 0) := by
  cases oc with
  | ok c =>
      refine ⟨⟨fun hne => absurd rfl hne, ?_⟩, fun hne => absurd rfl hne⟩
      rintro ⟨e, he⟩
      cases he
  | error e =>
      refine ⟨⟨fun _ => ⟨e, rfl⟩, fun _ => ?_⟩, fun _ => ⟨rfl, rfl⟩⟩
      simp [processPage, mkPageResult]

/-- C3: for every PageResult produced by the pipeline, the warning field is
set if and only if the recognition call for that page raised; whenever the
warning is set, the text is the empty string, the recorded `text_length` is
0, and that page's `structure.json` entry has `has_warning = true`. -/
theorem C3_warning_iff_recognition_failed
    (rec : Recognizer) (pages : List PdfPage) (job : String) (i : Nat)
    (h : i < pages.length) :
    ∃ (hr : i < (build_bundle rec (PdfDoc.valid pages) job).results.length)
      (hi : i < (pages.map (fun p => p.render 300)).length)
      (hs : i < (structEntries (build_bundle rec (PdfDoc.valid pages) job).results).length),
      (((build_bundle rec (PdfDoc.valid pages) job).results.get ⟨i, hr⟩).warning ≠ none
        ↔ ∃ e, rec ((pages.map (fun p => p.render 300)).get ⟨i, hi⟩) = Except.error e)
      ∧ (((build_bundle rec (PdfDoc.valid pages) job).results.get ⟨i, hr⟩).warning ≠ none →
          ((build_bundle rec (PdfDoc.valid pages) job).results.get ⟨i, hr⟩).text = ""
          ∧ ((build_bundle rec (PdfDoc.valid pages) job).results.get ⟨i, hr⟩).text_length = 0)
      ∧ (((build_bundle rec (PdfDoc.valid pages) job).results.get ⟨i, hr⟩).warning ≠ none →
          (structEntries (build_bundle rec (PdfDoc.valid pages) job).results).get ⟨i, hs⟩
            = { page_number :=
                  ((build_bundle rec (PdfDoc.valid pages) job).results.get ⟨i, hr⟩).page_number,
                text_length := 0, has_warning := true }) := by
  have hi : i < (pages.map (fun p => p.render 300)).length := by
    rw [List.length_map]
    exact h
  have hr : i < (build_bundle rec (PdfDoc.valid pages) job).results.length := by
    show i < (ocrLoop rec 1 (pages.map (fun p => p.render 300))).length
    rw [ocrLoop_length]
    exact hi
  have hs : i < (structEntries (build_bundle rec (PdfDoc.valid pages) job).results).length := by
    show i < (structEntries (ocrLoop rec 1 (pages.map (fun p => p.render 300)))).length
    rw [structEntries, List.length_map]
    exact hr
  refine ⟨hr, hi, hs, ?_⟩
  have hk : (build_bundle rec (PdfDoc.valid pages) job).results.get ⟨i, hr⟩
      = processPage (1 + i) (rec ((pages.map (fun p => p.render 300)).get ⟨i, hi⟩)) := by
    have hr2 : i < (ocrLoop rec 1 (pages.map (fun p => p.render 300))).length := hr
    exact ocrLoop_get rec (pages.map (fun p => p.render 300)) 1 i hi hr2
  have hgs : (structEntries (build_bundle rec (PdfDoc.valid pages) job).results).get ⟨i, hs⟩
      = { page_number := ((build_bundle rec (PdfDoc.valid pages) job).results.get ⟨i, hr⟩).page_number,
          text_length := ((build_bundle rec (PdfDoc.valid pages) job).results.get ⟨i, hr⟩).text_length,
          has_warning := ((build_bundle rec (PdfDoc.valid pages) job).results.get ⟨i, hr⟩).warning.isSome } :=
    List.get_map _
  cases hoc : rec ((pages.map (fun p => p.render 300)).get ⟨i, hi⟩) with
  | error e =>
      rw [hoc] at hk
      refine ⟨?_, ?_, ?_⟩
      · rw [hk]
        exact ⟨fun _ => ⟨e, rfl⟩, fun _ => by simp [processPage, mkPageResult]⟩
      · intro hne
        rw [hk]
        exact ⟨rfl, rfl⟩
      · intro hne
        rw [hgs, hk]
        rfl
  | ok c =>
      rw [hoc] at hk
      have hwnone : ((build_bundle rec (PdfDoc.valid pages) job).results.get ⟨i, hr⟩).warning
          = none := by
        rw [hk]
        rfl
      refine ⟨?_, ?_, ?_⟩
      · constructor
        · intro hne
          exact absurd hwnone hne
        · rintro ⟨e, he⟩
          cases he
      · intro hne
        exact absurd hwnone hne
      · intro hne
        exact absurd hwnone hne

/-- Closed witness for C3: in the concrete 3-page timeout run, the second
page (index 1) has its warning set, empty text, zero recorded length and a
`has_warning = true` structure entry, matching the failed recognition call. -/
theorem C3_witness :
    ∃ (hr : 1 < (build_bundle timeoutRec (PdfDoc.valid [mkPage "img1", mkPage "img2", mkPage "img3"]) "job3").results.length)
      (hi : 1 < ([mkPage "img1", mkPage "img2", mkPage "img3"].map (fun p => p.render 300)).length)
      (hs : 1 < (structEntries (build_bundle timeoutRec (PdfDoc.valid [mkPage "img1", mkPage "img2", mkPage "img3"]) "job3").results).length),
      (((build_bundle timeoutRec (PdfDoc.valid [mkPage "img1", mkPage "img2", mkPage "img3"]) "job3").results.get ⟨1, hr⟩).warning ≠ none
        ↔ ∃ e, timeoutRec (([mkPage "img1", mkPage "img2", mkPage "img3"].map (fun p => p.render 300)).get ⟨1, hi⟩) = Except.error e)
      ∧ (((build_bundle timeoutRec (PdfDoc.valid [mkPage "img1", mkPage "img2", mkPage "img3"]) "job3").results.get ⟨1, hr⟩).warning ≠ none →
          ((build_bundle timeoutRec (PdfDoc.valid [mkPage "img1", mkPage "img2", mkPage "img3"]) "job3").results.get ⟨1, hr⟩).text = ""
          ∧ ((build_bundle timeoutRec (PdfDoc.valid [mkPage "img1", mkPage "img2", mkPage "img3"]) "job3").results.get ⟨1, hr⟩).text_length = 0)
      ∧ (((build_bundle timeoutRec (PdfDoc.valid [mkPage "img1", mkPage "img2", mkPage "img3"]) "job3").results.get ⟨1, hr⟩).warning ≠ none →
          (structEntries (build_bundle timeoutRec (PdfDoc.valid [mkPage "img1", mkPage "img2", mkPage "img3"]) "job3").results).get ⟨1, hs⟩
            = { page_number :=
                  ((build_bundle timeoutRec (PdfDoc.valid [mkPage "img1", mkPage "img2", mkPage "img3"]) "job3").results.get ⟨1, hr⟩).page_number,
                text_length := 0, has_warning := true }) :=
  C3_warning_iff_recognition_failed timeoutRec
    [mkPage "img1", mkPage "img2", mkPage "img3"] "job3" 1 (by decide)

/-- Counterexample to C4 as stated: in the 3-page run where page 2's
recognition raises a timeout, the descriptor's warnings list is
`["OCR error: timeout"]` — a single element that is the caught exception
message, not of the form `"2: <timeout message>"`. -/
theorem C4_counterexample_warnings_not_page_prefixed :
    descWarnings (build_bundle timeoutRec threePageDoc "job") = ["OCR error: timeout"]
    ∧ ¬ ∃ m : String,
        descWarnings (build_bundle timeoutRec threePageDoc "job") = ["2: " ++ m] := by
  refine ⟨rfl, ?_⟩
  rintro ⟨m, hm⟩
  have h1 : descWarnings (build_bundle timeoutRec threePageDoc "job")
      = ["OCR error: timeout"] := rfl
  rw [h1] at hm
  have hm2 : ("OCR error: timeout" : String) = "2: " ++ m := by simpa using hm
  have h3 := congrArg String.data hm2
  cases m with
  | mk mdata => simp [String.append] at h3

/-- C4 (amended): for a 3-page document where exactly page 2's recognition
call raises (a timeout) and pages 1 and 3 return non-empty text, the
descriptor has `page_count = 3` and warnings equal to the single-element
list `["OCR error: <timeout message>"]` (the message embeds the cause but
is not prefixed with the page number), and `structure.json` lists page 2
with `text_length = 0` and `has_warning = true` while pages 1 and 3 have
non-zero `text_length` and `has_warning = false`. -/
theorem C4_amended_three_page_timeout
    (rec : Recognizer) (p1 p2 p3 : PdfPage) (job e t1 t3 : String)
    (h1 : rec (p1.render 300) = Except.ok (some t1))
    (h2 : rec (p2.render 300) = Except.error e)
    (h3 : rec (p3.render 300) = Except.ok (some t3))
    (ht1 : t1 ≠ "") (ht3 : t3 ≠ "") :
    ∃ d, (build_bundle rec (PdfDoc.valid [p1, p2, p3]) job).descriptor = Except.ok d
      ∧ d.page_count = 3
      ∧ d.warnings = ["OCR error: " ++ e]
      ∧ structEntries (build_bundle rec (PdfDoc.valid [p1, p2, p3]) job).results
          = [{ page_number := 1, text_length := t1.length, has_warning := false },
             { page_number := 2, text_length := 0, has_warning := true },
             { page_number := 3, text_length := t3.length, has_warning := false }]
      ∧ t1.length ≠ 0 ∧ t3.length ≠ 0 := by
  have hres : ocrLoop rec 1 [p1.render 300, p2.render 300, p3.render 300]
      = [mkPageResult 1 t1 none,
         mkPageResult 2 "" (some ("OCR error: " ++ e)),
         mkPageResult 3 t3 none] := by
    simp [ocrLoop, h1, h2, h3, processPage, ocr_page_with_vision]
  refine ⟨_, rfl, rfl, ?_, ?_, string_length_ne_zero t1 ht1, string_length_ne_zero t3 ht3⟩
  · show descriptorWarnings (ocrLoop rec 1 [p1.render 300, p2.render 300, p3.render 300])
      = ["OCR error: " ++ e]
    rw [hres]
    simp [descriptorWarnings, List.filterMap_cons, mkPageResult, ocr_warning_ne_empty e]
  · show structEntries (ocrLoop rec 1 [p1.render 300, p2.render 300, p3.render 300]) = _
    rw [hres]
    simp [structEntries, mkPageResult]

/-- Closed witness for C4 (amended): the concrete 3-page timeout run. -/
theorem C4_witness :
    ∃ d, (build_bundle timeoutRec (PdfDoc.valid [mkPage "img1", mkPage "img2", mkPage "img3"]) "job").descriptor
          = Except.ok d
      ∧ d.page_count = 3
      ∧ d.warnings = ["OCR error: " ++ "timeout"]
      ∧ structEntries (build_bundle timeoutRec (PdfDoc.valid [mkPage "img1", mkPage "img2", mkPage "img3"]) "job").results
          = [{ page_number := 1, text_length := ("hello one" : String).length, has_warning := false },
             { page_number := 2, text_length := 0, has_warning := true },
             { page_number := 3, text_length := ("hello three" : String).length, has_warning := false }]
      ∧ ("hello one" : String).length ≠ 0 ∧ ("hello three" : String).length ≠ 0 :=
  C4_amended_three_page_timeout timeoutRec (mkPage "img1") (mkPage "img2") (mkPage "img3")
    "job" "timeout" "hello one" "hello three" rfl rfl rfl (by decide) (by decide)

/-- Counterexample to C5 as stated: in a one-page run whose recognition
raises, the warnings document's single line is
`"Trang 1: OCR error: boom"` — prefixed with the literal `"Trang "`, not of
the claimed form `"<page_number>: <message>"`. -/
theorem C5_counterexample_line_not_number_prefixed :
    ocrWarningLines (build_bundle failRec (PdfDoc.valid [mkPage "imgA"]) "job5").results
      = ["Trang 1: OCR error: boom"]
    ∧ (["work", "job5", "docs", "ocr_warnings.txt"],
        FileData.textDoc "Trang 1: OCR error: boom\n")
        ∈ (build_bundle failRec (PdfDoc.valid [mkPage "imgA"]) "job5").filesWritten
    ∧ ¬ ∃ m : String,
        ocrWarningLines (build_bundle failRec (PdfDoc.valid [mkPage "imgA"]) "job5").results
          = ["1: " ++ m] := by
  refine ⟨by decide, by decide, ?_⟩
  rintro ⟨m, hm⟩
  have h1 : ocrWarningLines (build_bundle failRec (PdfDoc.valid [mkPage "imgA"]) "job5").results
      = ["Trang 1: OCR error: boom"] := by decide
  rw [h1] at hm
  have hm2 : ("Trang 1: OCR error: boom" : String) = "1: " ++ m := by simpa using hm
  have h3 := congrArg String.data hm2
  cases m with
  | mk mdata => simp [String.append] at h3

/-- C5 (amended): the warnings document holds exactly one line per page
whose PageResult has a truthy warning, in page order, each of the form
`"Trang <page_number>: <message>"`; its line count equals the number of
warned pages. -/
theorem C5_amended_warnings_document
    (rec : Recognizer) (pages : List PdfPage) (job : String) :
    (["work", job, "docs", "ocr_warnings.txt"],
      FileData.textDoc (joinLines
        (ocrWarningLines (build_bundle rec (PdfDoc.valid pages) job).results)))
      ∈ (build_bundle rec (PdfDoc.valid pages) job).filesWritten
    ∧ ocrWarningLines (build_bundle rec (PdfDoc.valid pages) job).results
        = ((build_bundle rec (PdfDoc.valid pages) job).results.filter
            (fun r => warnTruthy r.warning)).map
            (fun r => "Trang " ++ toString r.page_number ++ ": " ++ r.warning.getD "")
    ∧ (ocrWarningLines (build_bundle rec (PdfDoc.valid pages) job).results).length
        = ((build_bundle rec (PdfDoc.valid pages) job).results.filter
            (fun r => warnTruthy r.warning)).length := by
  refine ⟨?_, ocrWarningLines_eq _, by rw [ocrWarningLines_eq, List.length_map]⟩
  show (["work", job, "docs", "ocr_warnings.txt"],
      FileData.textDoc (joinLines
        (ocrWarningLines (ocrLoop rec 1 (pages.map (fun p => p.render 300))))))
      ∈ bundleFiles rec pages job
  apply List.mem_append_right
  simp

/-- C7: every file written under the job's working directory during
assembly appears in the produced archive as a member whose entry name
equals that file's path relative to the working-directory root, carrying
identical content. -/
theorem C7_archive_round_trip
    (rec : Recognizer) (pages : List PdfPage) (job : String)
    (p : List String) (d : FileData)
    (hmem : (p, d) ∈ (build_bundle rec (PdfDoc.valid pages) job).filesWritten) :
    ∃ members,
      (build_bundle rec (PdfDoc.valid pages) job).archive
        = some (["bundles", job ++ ".zip"], members)
      ∧ (relpath p ["work", job], d) ∈ members
      ∧ ∃ rel, p = ["work", job] ++ rel ∧ relpath p ["work", job] = rel := by
  refine ⟨_, rfl, ?_, ?_⟩
  · have hmem2 : (p, d) ∈ bundleFiles rec pages job := hmem
    exact List.mem_map_of_mem _ hmem2
  · have hmem2 : (p, d) ∈ bundleFiles rec pages job := hmem
    unfold bundleFiles at hmem2
    rcases List.mem_append.mp hmem2 with hmedia | hdocs
    · rcases mediaFiles_mem_shape ["work", job, "media", "images"] 1
        (pages.map (fun p => p.render 300)) p d hmedia with ⟨name, hp⟩
      refine ⟨["media", "images", name], ?_, ?_⟩
      · rw [hp]
        rfl
      · rw [hp]
        rfl
    · simp only [List.mem_cons, List.not_mem_nil, or_false] at hdocs
      rcases hdocs with h1 | h1 | h1 | h1
      · have hp : p = ["work", job, "docs", "raw_text.md"] := congrArg Prod.fst h1
        exact ⟨["docs", "raw_text.md"], by rw [hp]; rfl, by rw [hp]; rfl⟩
      · have hp : p = ["work", job, "docs", "structure.json"] := congrArg Prod.fst h1
        exact ⟨["docs", "structure.json"], by rw [hp]; rfl, by rw [hp]; rfl⟩
      · have hp : p = ["work", job, "docs", "ocr_warnings.txt"] := congrArg Prod.fst h1
        exact ⟨["docs", "ocr_warnings.txt"], by rw [hp]; rfl, by rw [hp]; rfl⟩
      · have hp : p = ["work", job, "tables", "table_001.json"] := congrArg Prod.fst h1
        exact ⟨["tables", "table_001.json"], by rw [hp]; rfl, by rw [hp]; rfl⟩

/-- Closed witness for C7: in a concrete run, the tables placeholder file
written under the working directory appears in the archive under its
relative path with identical content. -/
theorem C7_witness :
    ∃ members,
      (build_bundle nullRec (PdfDoc.valid [mkPage "imgA"]) "job4").archive
        = some (["bundles", "job4" ++ ".zip"], members)
      ∧ (relpath ["work", "job4", "tables", "table_001.json"] ["work", "job4"],
          FileData.tablesJson [] "Chưa implement nhận diện bảng.") ∈ members
      ∧ ∃ rel, ["work", "job4", "tables", "table_001.json"] = ["work", "job4"] ++ rel
          ∧ relpath ["work", "job4", "tables", "table_001.json"] ["work", "job4"] = rel :=
  C7_archive_round_trip nullRec [mkPage "imgA"] "job4"
    ["work", "job4", "tables", "table_001.json"]
    (FileData.tablesJson [] "Chưa implement nhận diện bảng.") (by decide)

/-- C8: the working directory holds exactly the fixed layout — one
`media/images/page_<NNN>.png` per page with the zero-padded page index,
then `docs/raw_text.md` (the page texts with page-boundary markers in page
order), `docs/structure.json`, `docs/ocr_warnings.txt` and
`tables/table_001.json` — with no optional members, and the tables
placeholder has the same fixed content for every job, page list and
recognizer. -/
theorem C8_fixed_output_layout
    (rec : Recognizer) (pages : List PdfPage) (job : String) :
    ((build_bundle rec (PdfDoc.valid pages) job).filesWritten.map Prod.fst
      = (List.range pages.length).map
          (fun k => ["work", job, "media", "images", "page_" ++ pad3 (k + 1) ++ ".png"])
        ++ [["work", job, "docs", "raw_text.md"],
            ["work", job, "docs", "structure.json"],
            ["work", job, "docs", "ocr_warnings.txt"],
            ["work", job, "tables", "table_001.json"]])
    ∧ (["work", job, "tables", "table_001.json"],
        FileData.tablesJson [] "Chưa implement nhận diện bảng.")
        ∈ (build_bundle rec (PdfDoc.valid pages) job).filesWritten
    ∧ (["work", job, "docs", "raw_text.md"],
        FileData.textDoc (rawTextContent (build_bundle rec (PdfDoc.valid pages) job).results))
        ∈ (build_bundle rec (PdfDoc.valid pages) job).filesWritten := by
  refine ⟨?_, ?_, ?_⟩
  · show (bundleFiles rec pages job).map Prod.fst = _
    unfold bundleFiles
    rw [List.map_append, mediaFiles_map_fst, List.length_map]
    congr 1
    apply List.map_congr_left
    intro k _
    have harith : 1 + k = k + 1 := Nat.add_comm 1 k
    rw [harith]
    rfl
  · show (["work", job, "tables", "table_001.json"],
        FileData.tablesJson [] "Chưa implement nhận diện bảng.")
        ∈ bundleFiles rec pages job
    apply List.mem_append_right
    simp
  · show (["work", job, "docs", "raw_text.md"],
        FileData.textDoc (rawTextContent (ocrLoop rec 1 (pages.map (fun p => p.render 300)))))
        ∈ bundleFiles rec pages job
    apply List.mem_append_right
    simp
